import Mathlib

/-!
Shallow embedding of the core of the sandboxed-python-execution repository:
identifier validation and table I/O (src/worker/data_handler.py), job queue
transitions (src/worker/queue_manager.py), the job processor
(src/worker/job_processor.py), the worker supervisor loop (src/worker/main.py),
the restricted compiler (src/sandbox/restricted_compiler.py), the subprocess
runner (src/sandbox/runner.py) and the monitoring executor
(src/sandbox/executor.py).  Machine strings are modelled as `List Char`
processed by structural functions so that every definition is executable and
kernel-reducible.
-/

/- ### Basic character/string machinery (models of Python `str` operations) -/

/-- Model of Python `str.startswith` over character lists. -/
def leadsWith : List Char → List Char → Bool
  | [], _ => true
  | _ :: _, [] => false
  | a :: as, b :: bs => a == b && leadsWith as bs

/-- Model of Python substring containment (`pat in s`). -/
def containsChars (pat : List Char) : List Char → Bool
  | [] => leadsWith pat []
  | c :: rest => leadsWith pat (c :: rest) || containsChars pat rest

/-- Model of Python `pat in s` on strings. -/
def strContains (s pat : String) : Bool := containsChars pat.data s.data

/-- ASCII lower-casing of one character (the only case `str.lower` meets here). -/
def lowerAsciiChar (c : Char) : Char :=
  if 'A' ≤ c ∧ c ≤ 'Z' then Char.ofNat (c.toNat + 32) else c

/-- Model of Python `str.lower` (all inputs in this development are ASCII). -/
def lowerAscii (s : String) : String := String.mk (s.data.map lowerAsciiChar)

/-- ASCII letter test, `[A-Za-z]` of the identifier regexes. -/
def isAsciiLetter (c : Char) : Bool :=
  ('a' ≤ c && c ≤ 'z') || ('A' ≤ c && c ≤ 'Z')

/-- Word character test, `[A-Za-z0-9_]` of the identifier regexes. -/
def isWordChar (c : Char) : Bool :=
  isAsciiLetter c || ('0' ≤ c && c ≤ '9') || c == '_'

/-- Python's `$` anchor in `re` also matches just before one trailing newline,
so `re.match(r"^...$", name)` first allows a single final `'\n'` to be dropped. -/
def pyDollarTrim (cs : List Char) : List Char :=
  if cs.getLast? = some '\n' then cs.dropLast else cs

/- ### data_handler.py: identifier validation -/

/-- Model of `DataHandler.is_valid_table_name`: Python
`re.match(r"^[a-zA-Z][a-zA-Z0-9_]{0,62}$", name)` (data_handler.py:163-176). -/
def is_valid_table_name (name : String) : Bool :=
  match pyDollarTrim name.data with
  | [] => false
  | c :: rest => isAsciiLetter c && rest.all isWordChar && decide (rest.length ≤ 62)

/-- Model of `DataHandler.is_valid_column_name`: Python
`re.match(r"^[a-zA-Z_][a-zA-Z0-9_]{0,62}$", name)` (data_handler.py:200-212). -/
def is_valid_column_name (name : String) : Bool :=
  match pyDollarTrim name.data with
  | [] => false
  | c :: rest =>
    (isAsciiLetter c || c == '_') && rest.all isWordChar && decide (rest.length ≤ 62)

/-- `SYSTEM_TABLES` of data_handler.py:16. -/
def SYSTEM_TABLES : List String := ["users", "scripts", "jobs", "alembic_version"]

/-- The reserved leading patterns of `is_valid_destination_table`
(data_handler.py:194). -/
def reservedStarts : List String := ["pg_", "sql_", "information_schema"]

/-- Model of `DataHandler.is_valid_destination_table` (data_handler.py:178-198). -/
def is_valid_destination_table (name : String) : Bool :=
  is_valid_table_name name &&
  !(SYSTEM_TABLES.contains (lowerAscii name)) &&
  !(reservedStarts.any fun p => leadsWith p.data (lowerAscii name).data)

/- ### DataFrame model -/

/-- Scalar cell of a pandas DataFrame; the constructor records the scalar type. -/
inductive CellValue
  | vInt (n : Int)
  | vStr (s : String)
  | vBool (b : Bool)
  | vNull
deriving DecidableEq, Repr

/-- Row-oriented model of a pandas DataFrame: named columns in order plus rows. -/
structure DataFrame where
  columns : List String
  rows : List (List CellValue)
deriving DecidableEq, Repr

/-- Decidable equality for `Except` results, used to evaluate concrete runs. -/
instance {ε α : Type} [DecidableEq ε] [DecidableEq α] : DecidableEq (Except ε α) :=
  fun a b =>
    match a, b with
    | Except.error e, Except.error f =>
      if h : e = f then isTrue (by rw [h]) else
        isFalse (by intro hh; injection hh; exact absurd (by assumption) h)
    | Except.error _, Except.ok _ => isFalse (by intro hh; exact Except.noConfusion hh)
    | Except.ok _, Except.error _ => isFalse (by intro hh; exact Except.noConfusion hh)
    | Except.ok x, Except.ok y =>
      if h : x = y then isTrue (by rw [h]) else
        isFalse (by intro hh; injection hh; exact absurd (by assumption) h)

/-- Model of pandas `df.empty`: true when either axis has length zero. -/
def DataFrame.isEmptyTable (df : DataFrame) : Bool :=
  df.rows.isEmpty || df.columns.isEmpty

/-- The `LIMIT limit OFFSET offset` slice read by `load_table_chunk`. -/
def DataFrame.slice (df : DataFrame) (limit offset : Nat) : DataFrame :=
  ⟨df.columns, (df.rows.drop offset).take limit⟩

/- ### data_handler.py: DataStore operations over a named-table database -/

/-- The backing PostgreSQL database, as a finite map from table name to table. -/
structure PgDatabase where
  tables : List (String × DataFrame)
deriving DecidableEq, Repr

/-- Look a table up by name. -/
def PgDatabase.lookupTable (db : PgDatabase) (name : String) : Option DataFrame :=
  (db.tables.find? fun t => t.1 == name).map (·.2)

/-- Replace or create the binding for `name`. -/
def PgDatabase.setTable (db : PgDatabase) (name : String) (df : DataFrame) :
    PgDatabase :=
  ⟨(name, df) :: db.tables.filter fun t => !(t.1 == name)⟩

/-- Model of `DataHandler.load_table` (data_handler.py:34-48): the only guard is
`is_valid_table_name`; a missing relation surfaces as a database error. -/
def load_table (db : PgDatabase) (name : String) : Except String DataFrame :=
  if !is_valid_table_name name then .error ("Invalid table name: " ++ name)
  else
    match db.lookupTable name with
    | some df => .ok df
    | none => .error ("relation does not exist: " ++ name)

/-- Model of `DataHandler.load_table_chunk` (data_handler.py:50-68). -/
def load_table_chunk (db : PgDatabase) (name : String) (chunkSize offset : Nat) :
    Except String DataFrame :=
  if !is_valid_table_name name then .error ("Invalid table name: " ++ name)
  else
    match db.lookupTable name with
    | some df => .ok (df.slice chunkSize offset)
    | none => .error ("relation does not exist: " ++ name)

/-- Model of `DataHandler.get_row_count` (data_handler.py:70-85). -/
def get_row_count (db : PgDatabase) (name : String) : Except String Nat :=
  if !is_valid_table_name name then .error ("Invalid table name: " ++ name)
  else
    match db.lookupTable name with
    | some df => .ok df.rows.length
    | none => .error ("relation does not exist: " ++ name)

/-- `if_exists` argument of pandas `to_sql`. -/
inductive WriteMode
  | replace
  | append
  | failIfExists
deriving DecidableEq, Repr

/-- The validation half of `DataHandler.write_dataframe` (data_handler.py:107-123),
returning the first raised `ValueError` message, if any.  The Python messages for
the size and column errors carry formatted context after the text modelled here
(thousands separators in row counts are dropped). -/
def write_dataframe_validate (maxRows : Nat) (df : DataFrame) (name : String) :
    Option String :=
  if !is_valid_destination_table name then
    some ("Invalid destination table name: " ++ name)
  else if df.isEmptyTable then some "Cannot write empty DataFrame"
  else if df.rows.length > maxRows then some "Output exceeds maximum rows"
  else
    match df.columns.find? (fun c => !is_valid_column_name c) with
    | some c => some ("Invalid column name: " ++ c)
    | none => none

/-- Model of `DataHandler.write_dataframe` (data_handler.py:87-136): validation
first, then the `to_sql` write; every raised error leaves the database as it was.
Returns the updated database and `len(df)` on success. -/
def write_dataframe (db : PgDatabase) (maxRows : Nat) (df : DataFrame)
    (name : String) (mode : WriteMode) : PgDatabase × Except String Nat :=
  match write_dataframe_validate maxRows df name with
  | some e => (db, .error e)
  | none =>
    match mode, db.lookupTable name with
    | .replace, _ => (db.setTable name df, .ok df.rows.length)
    | .append, some old =>
        (db.setTable name ⟨old.columns, old.rows ++ df.rows⟩, .ok df.rows.length)
    | .append, none => (db.setTable name df, .ok df.rows.length)
    | .failIfExists, some _ => (db, .error ("Table " ++ name ++ " already exists"))
    | .failIfExists, none => (db.setTable name df, .ok df.rows.length)

/- ### models/job.py and queue_manager.py -/

/-- `JobStatus` enumeration of app/models/job.py:18-26. -/
inductive JobStatus
  | pending
  | running
  | completed
  | failed
  | timeout
  | killed
deriving DecidableEq, Repr

/-- One row of the `jobs` table, restricted to the lifecycle fields the worker
touches.  Timestamps are abstract clock readings. -/
structure Job where
  id : Nat
  status : JobStatus
  logs : String
  error_message : Option String
  rows_processed : Nat
  started_at : Option Nat
  completed_at : Option Nat
deriving DecidableEq, Repr

/-- Model of `QueueManager.mark_job_running` (queue_manager.py:49-66): the UPDATE
carries `WHERE id = job_id AND status = PENDING`, so it fires only from pending;
the Bool is `rowcount > 0`. -/
def mark_job_running (now : Nat) (j : Job) : Job × Bool :=
  if j.status = JobStatus.pending then
    ({ j with status := JobStatus.running, started_at := some now }, true)
  else (j, false)

/-- Model of `QueueManager.mark_job_completed` (queue_manager.py:68-97): the
UPDATE matches on id only, with no status predicate. -/
def mark_job_completed (now rows : Nat) (logText : String) (j : Job) :
    Job × Bool :=
  ({ j with
      status := JobStatus.completed
      rows_processed := rows
      logs := logText
      completed_at := some now }, true)

/-- Model of `QueueManager.mark_job_failed` (queue_manager.py:99-130): the caller
chooses the terminal status (`FAILED` by default in Python); the UPDATE matches
on id only, with no status predicate. -/
def mark_job_failed (now : Nat) (kind : JobStatus) (err logText : String)
    (j : Job) : Job × Bool :=
  ({ j with
      status := kind
      error_message := some err
      logs := logText
      completed_at := some now }, true)

/-- Model of `QueueManager.update_job_progress` (queue_manager.py:132-156). -/
def update_job_progress (rows : Nat) (logText : String) (j : Job) : Job × Bool :=
  ({ j with rows_processed := rows, logs := logText }, true)

/-- Model of `QueueManager.check_job_cancelled` (queue_manager.py:172-187):
reads the status and returns true iff it is `KILLED`. -/
def check_job_cancelled (j : Job) : Bool := j.status = JobStatus.killed

/- ### restricted_compiler.py: pre-validation, wrapping, compilation -/

/-- Split on `'\n'`, the model of Python `code.split("\n")`. -/
def splitLines : List Char → List (List Char)
  | [] => [[]]
  | c :: rest =>
    if c = '\n' then [] :: splitLines rest
    else
      match splitLines rest with
      | [] => [[c]]
      | l :: ls => (c :: l) :: ls

/-- Join with `'\n'`, the model of Python `"\n".join(lines)`. -/
def joinLines : List (List Char) → List Char
  | [] => []
  | [l] => l
  | l :: ls => l ++ '\n' :: joinLines ls

/-- Whitespace characters met by `str.strip` in this code base. -/
def isPySpace (c : Char) : Bool := c == ' ' || c == '\t'

/-- Model of Python `line.strip()`. -/
def stripChars (cs : List Char) : List Char :=
  ((cs.dropWhile isPySpace).reverse.dropWhile isPySpace).reverse

/-- The `dangerous_patterns` table of `RestrictedCompiler._pre_validate`
(restricted_compiler.py:135-154), in source order. -/
def dangerous_patterns : List (String × String) := [
  ("__import__", "Dynamic imports are not allowed"),
  ("importlib", "importlib is not allowed"),
  ("exec(", "exec() is not allowed"),
  ("eval(", "eval() is not allowed"),
  ("compile(", "compile() is not allowed"),
  ("open(", "File operations are not allowed"),
  ("globals(", "globals() is not allowed"),
  ("locals(", "locals() is not allowed"),
  ("vars(", "vars() is not allowed"),
  ("getattr(", "getattr() is not allowed - use direct attribute access"),
  ("setattr(", "setattr() is not allowed"),
  ("delattr(", "delattr() is not allowed"),
  ("__builtins__", "Access to __builtins__ is not allowed"),
  (".__class__", "Access to __class__ is not allowed"),
  (".__bases__", "Access to __bases__ is not allowed"),
  (".__subclasses__", "Access to __subclasses__ is not allowed"),
  (".__globals__", "Access to __globals__ is not allowed"),
  (".__code__", "Access to __code__ is not allowed")]

/-- The substring stage of `_pre_validate` (restricted_compiler.py:156-159):
first pattern whose lower-cased text occurs in the lower-cased source. -/
def firstDangerous (code : String) : Option String :=
  (dangerous_patterns.find? fun p =>
    strContains (lowerAscii code) (lowerAscii p.1)).map (·.2)

/-- `BLOCKED_IMPORTS` of restricted_compiler.py:30-89. -/
def BLOCKED_IMPORTS : List String := [
  "os", "sys", "subprocess", "socket", "ctypes", "multiprocessing", "threading",
  "asyncio", "concurrent", "signal", "shutil", "tempfile", "glob", "fnmatch",
  "pathlib", "io", "builtins", "__builtins__", "importlib", "pkgutil", "code",
  "codeop", "compile", "dis", "inspect", "gc", "weakref", "pickle", "shelve",
  "marshal", "dbm", "sqlite3", "ssl", "http", "urllib", "ftplib", "smtplib",
  "email", "xml", "html", "webbrowser", "cmd", "pdb", "profile", "timeit",
  "trace", "platform", "getpass", "pty", "tty", "termios", "fcntl", "select",
  "mmap", "resource", "sysconfig", "warnings", "logging"]

/-- Abstract syntax for the Python statement fragment this development needs:
`return <name>`, `import <module>`, and a `def` with a simple-statement body. -/
inductive PyExpr
  | evar (nm : String)
deriving Repr

/-- Statements of the modelled fragment. -/
inductive PyStmt
  | ret (e : PyExpr)
  | importM (modName : String)
  | defun (nm : String) (params : List String) (body : List PyStmt)
deriving Repr

/-- Parse one simple statement line of the fragment. -/
def parseSimpleStmt (line : List Char) : Option PyStmt :=
  let t := stripChars line
  if leadsWith "return ".data t then
    some (PyStmt.ret (PyExpr.evar (String.mk (stripChars (t.drop 7)))))
  else if leadsWith "import ".data t then
    some (PyStmt.importM (String.mk (stripChars (t.drop 7))))
  else none

/-- Lines that belong to a `def` body: indented by four spaces or blank. -/
def bodyLine (l : List Char) : Bool :=
  leadsWith "    ".data l || (stripChars l).isEmpty

/-- Parse a `def` body: every non-blank line is a 4-space-indented simple
statement. -/
def parseBody : List (List Char) → Option (List PyStmt)
  | [] => some []
  | l :: rest =>
    if (stripChars l).isEmpty then parseBody rest
    else if leadsWith "    ".data l then
      match parseSimpleStmt (l.drop 4), parseBody rest with
      | some s, some ss => some (s :: ss)
      | _, _ => none
    else none

/-- Line-directed parser of the fragment; the `Nat` is structural fuel bounded
by the number of lines, consumed one line group at a time. -/
def parseLinesF : Nat → List (List Char) → Option (List PyStmt)
  | _, [] => some []
  | 0, _ :: _ => none
  | fuel + 1, l :: rest =>
    if (stripChars l).isEmpty then parseLinesF fuel rest
    else if l == "def transform(df):".data then
      match parseBody (rest.takeWhile bodyLine),
            parseLinesF fuel (rest.dropWhile bodyLine) with
      | some body, some ss => some (PyStmt.defun "transform" ["df"] body :: ss)
      | _, _ => none
    else
      match parseSimpleStmt l, parseLinesF fuel rest with
      | some s, some ss => some (s :: ss)
      | _, _ => none

/-- Model of `ast.parse` on the fragment (fails on sources outside it). -/
def parseModule (code : String) : Option (List PyStmt) :=
  let ls := splitLines code.data
  parseLinesF ls.length ls

/-- The per-import check of the AST walk in `_pre_validate`
(restricted_compiler.py:178-192): the module head must not be blocked and must
be one of pandas, numpy, datetime, math. -/
def importCheck (m : String) : Option String :=
  let head := String.mk (m.data.takeWhile fun c => c != '.')
  if BLOCKED_IMPORTS.contains head then
    some ("Import of '" ++ m ++ "' is not allowed")
  else if !(["pandas", "numpy", "datetime", "math"].contains head) then
    some ("Import of '" ++ m ++ "' is not allowed. Only pandas, numpy, datetime, and math are permitted.")
  else none

/-- The AST walk of `_pre_validate` over the fragment, structural in a fuel
argument (one unit per statement visited; any fuel at least the statement count
suffices, and the parser yields at most one statement per source line). -/
def astRejectF : Nat → List PyStmt → Option String
  | _, [] => none
  | 0, _ :: _ => some "fuel exhausted"
  | fuel + 1, s :: rest =>
    match s with
    | PyStmt.importM m =>
      match importCheck m with
      | some e => some e
      | none => astRejectF fuel rest
    | PyStmt.defun _ _ body =>
      match astRejectF fuel body with
      | some e => some e
      | none => astRejectF fuel rest
    | PyStmt.ret _ => astRejectF fuel rest

/-- Model of `RestrictedCompiler._pre_validate` (restricted_compiler.py:127-200):
substring stage first, then parse, then the AST walk. -/
def pre_validate (code : String) : Option String :=
  match firstDangerous code with
  | some msg => some msg
  | none =>
    match parseModule code with
    | none => some "Syntax error"
    | some m => astRejectF (code.data.length + 1) m

/-- The wrapped text of `_wrap_transform_function` (restricted_compiler.py:212-223):
indent non-blank lines by four spaces and embed them in a transform definition
followed by `return df`. -/
def wrapChars (cs : List Char) : List Char :=
  let indented := joinLines ((splitLines cs).map fun line =>
    if (stripChars line).isEmpty then line else "    ".data ++ line)
  "\ndef transform(df):\n".data ++ indented ++ "\n    return df\n".data

/-- Model of `RestrictedCompiler._wrap_transform_function`
(restricted_compiler.py:202-223): wrapping is skipped exactly when the raw
substring `def transform` occurs anywhere in the source. -/
def wrap_transform_function (code : String) : String :=
  if strContains code "def transform" then code
  else String.mk (wrapChars code.data)

/-- True when a `return` appears at module level: CPython's bytecode compiler
(reached through RestrictedPython's `compile_restricted`) raises a SyntaxError
for it. -/
def hasTopLevelReturn (stmts : List PyStmt) : Bool :=
  stmts.any fun s =>
    match s with
    | PyStmt.ret _ => true
    | _ => false

/-- Model of `compile_restricted` on the fragment: RestrictedPython's rewrite
hooks touch only attribute and subscript access, which the fragment does not
contain, so successful compilation is the identity on the parsed module. -/
def compile_restricted (m : List PyStmt) : Except String (List PyStmt) :=
  if hasTopLevelReturn m then
    .error "Syntax error at line 1: 'return' outside function"
  else .ok m

/-- Model of `RestrictedCompiler.compile_code` (restricted_compiler.py:91-125):
pre-validate the raw source, wrap it, then compile the wrapped text. -/
def compile_code (code : String) : Except String (List PyStmt) :=
  match pre_validate code with
  | some msg => .error msg
  | none =>
    let wrapped := wrap_transform_function code
    match parseModule wrapped with
    | none => .error "Syntax error"
    | some m => compile_restricted m

/- ### runner.py: the child process -/

/-- Python values the fragment's runner manipulates. -/
inductive PyVal
  | vDF (df : DataFrame)
  | vNone
deriving Repr

/-- Scope bindings produced by `exec`: plain values and defined functions. -/
inductive Binding
  | bval (v : PyVal)
  | bfunc (params : List String) (body : List PyStmt)
deriving Repr

/-- The runner's `local_scope` dictionary. -/
abbrev Scope := List (String × Binding)

/-- Dictionary lookup in a scope (later bindings shadow earlier ones). -/
def scopeGet (sc : Scope) (nm : String) : Option Binding :=
  (sc.find? fun b => b.1 == nm).map (·.2)

/-- Evaluate an expression of the fragment in a scope. -/
def evalExpr (sc : Scope) : PyExpr → Option PyVal
  | PyExpr.evar nm =>
    match scopeGet sc nm with
    | some (Binding.bval v) => some v
    | _ => none

/-- Run a function body: the first `return` yields its value, falling off the
end yields `None`; allowed imports and nested defs only extend the scope. -/
def evalBody : List PyStmt → Scope → Option PyVal
  | [], _ => some PyVal.vNone
  | PyStmt.ret e :: _, sc => evalExpr sc e
  | PyStmt.importM _ :: rest, sc => evalBody rest sc
  | PyStmt.defun nm ps b :: rest, sc => evalBody rest ((nm, Binding.bfunc ps b) :: sc)

/-- `exec(code, restricted_globals, local_scope)` over the fragment: module-level
statements populate the local scope.  A module-level `return` cannot reach this
point because compilation rejects it; `none` records that impossibility. -/
def execStmts : List PyStmt → Scope → Option Scope
  | [], sc => some sc
  | PyStmt.defun nm ps b :: rest, sc => execStmts rest ((nm, Binding.bfunc ps b) :: sc)
  | PyStmt.importM _ :: rest, sc => execStmts rest sc
  | PyStmt.ret _ :: _, _ => none

/-- Call the retrieved transform binding on the input table (runner.py:45-46). -/
def callTransform (ps : List String) (body : List PyStmt) (df : DataFrame) :
    Option PyVal :=
  match ps with
  | [p] => evalBody body [(p, Binding.bval (PyVal.vDF df))]
  | _ => none

/-- The success payload of the child-to-parent envelope (runner.py:61-66). -/
structure SuccessPayload where
  df : DataFrame
  row_count : Nat
  columns : List String
deriving DecidableEq, Repr

/-- The pickled response envelope written to stdout by the runner. -/
inductive Envelope
  | success (payload : SuccessPayload)
  | failure (error_type error : String)
deriving DecidableEq, Repr

/-- What the runner emits: the envelope plus whether the empty-result warning
was printed to stderr (runner.py:56-58). -/
structure RunnerOutput where
  envelope : Envelope
  warnedEmptyStderr : Bool
deriving DecidableEq, Repr

/-- Result validation of runner.py:48-66: a non-DataFrame return raises
`TypeError`; an empty DataFrame only warns on stderr and still succeeds. -/
def runner_validate (v : PyVal) : RunnerOutput :=
  match v with
  | PyVal.vDF df =>
    { envelope := Envelope.success ⟨df, df.rows.length, df.columns⟩
      warnedEmptyStderr := df.isEmptyTable }
  | PyVal.vNone =>
    { envelope := Envelope.failure "TypeError" "transform() must return a DataFrame, got NoneType"
      warnedEmptyStderr := false }

/-- Model of `runner.main` (runner.py:19-90) after deserialization: exec the
compiled module, retrieve `transform`, call it, validate the result. -/
def runner_main (compiled : List PyStmt) (df : DataFrame) : RunnerOutput :=
  match execStmts compiled [("df", Binding.bval (PyVal.vDF df))] with
  | none =>
    { envelope := Envelope.failure "Error" "module execution error"
      warnedEmptyStderr := false }
  | some sc =>
    match scopeGet sc "transform" with
    | some (Binding.bfunc ps body) =>
      match callTransform ps body df with
      | some v => runner_validate v
      | none =>
        { envelope := Envelope.failure "Error" "execution error"
          warnedEmptyStderr := false }
    | _ =>
      { envelope := Envelope.failure "ValueError" "No transform function defined in script. Your code must define: def transform(df): ..."
        warnedEmptyStderr := false }

/- ### executor.py: subprocess monitoring -/

/-- Observable behaviour of one spawned child process: the poll iteration at
which it has exited (none = never), its exit code, its parsed stdout envelope
(none = unparseable), and its resident memory in MB at each poll. -/
structure ChildProc where
  exitAt : Option Nat
  exitCode : Int
  output : Option RunnerOutput
  memAt : Nat → Nat

/-- `self.process.poll() is not None` at poll iteration `k`. -/
def childExited (c : ChildProc) (k : Nat) : Bool :=
  match c.exitAt with
  | some e => decide (e ≤ k)
  | none => false

/-- Outcome of `_monitor_process` (executor.py:170-216). -/
inductive MonitorResult
  | timedOut
  | memoryKilled
  | exited
deriving DecidableEq, Repr

/-- The monitoring loop of executor.py:184-214 on an abstract clock that
advances one unit per poll iteration: poll first, then the wall-clock check
`elapsed > SANDBOX_TIMEOUT`, then the memory check.  The fuel argument is
structural; `monitor_process` supplies `timeoutS + 2`, which the timeout check
never lets the loop outrun. -/
def monitor_loop (timeoutS maxMemMB : Nat) (c : ChildProc) : Nat → Nat → MonitorResult
  | _, 0 => MonitorResult.exited
  | k, fuel + 1 =>
    if childExited c k then MonitorResult.exited
    else if k > timeoutS then MonitorResult.timedOut
    else if c.memAt k > maxMemMB then MonitorResult.memoryKilled
    else monitor_loop timeoutS maxMemMB c (k + 1) fuel

/-- Model of `_monitor_process` entry. -/
def monitor_process (timeoutS maxMemMB : Nat) (c : ChildProc) : MonitorResult :=
  monitor_loop timeoutS maxMemMB c 0 (timeoutS + 2)

/-- Result of `SandboxExecutor.execute`: the (success, result_df) pair plus two
facts read off the log/kill behaviour — whether `_kill_process` ran and whether
the `KILLED: Timeout exceeded` log line was emitted (executor.py:188-191). -/
structure ExecOutcome where
  success : Bool
  result : Option DataFrame
  killedChild : Bool
  timeoutNoted : Bool
deriving DecidableEq, Repr

/-- Model of `_handle_process_completion` (executor.py:218-258): non-zero exit,
unparseable stdout, and failure envelopes all yield failure; a success envelope
yields its DataFrame. -/
def handle_process_completion (c : ChildProc) : ExecOutcome :=
  if c.exitCode ≠ 0 then ⟨false, none, false, false⟩
  else
    match c.output with
    | none => ⟨false, none, false, false⟩
    | some out =>
      match out.envelope with
      | Envelope.success p => ⟨true, some p.df, false, false⟩
      | Envelope.failure _ _ => ⟨false, none, false, false⟩

/-- Monitoring wrapped around completion handling (executor.py:166-216). -/
def run_and_monitor (timeoutS maxMemMB : Nat) (c : ChildProc) : ExecOutcome :=
  match monitor_process timeoutS maxMemMB c with
  | MonitorResult.timedOut => ⟨false, none, true, true⟩
  | MonitorResult.memoryKilled => ⟨false, none, true, false⟩
  | MonitorResult.exited => handle_process_completion c

/-- Model of `SandboxExecutor.execute` (executor.py:59-113) against a child
with the given observable behaviour: compile, then launch and monitor. -/
def executor_execute (timeoutS maxMemMB : Nat) (code : String) (c : ChildProc) :
    ExecOutcome :=
  match compile_code code with
  | .error _ => ⟨false, none, false, false⟩
  | .ok _ => run_and_monitor timeoutS maxMemMB c

/-- The child process that actually runs runner.py on the compiled module:
exits immediately with code 0 and the runner's serialized output. -/
def runnerChild (compiled : List PyStmt) (df : DataFrame) : ChildProc :=
  { exitAt := some 0, exitCode := 0, output := some (runner_main compiled df)
    memAt := fun _ => 0 }

/-- The full sandbox pipeline on one table: compile the user source, run the
runner child on the compiled module, monitor and parse. -/
def sandbox_execute_pipeline (timeoutS maxMemMB : Nat) (code : String)
    (df : DataFrame) : ExecOutcome :=
  match compile_code code with
  | .error _ => ⟨false, none, false, false⟩
  | .ok compiled => run_and_monitor timeoutS maxMemMB (runnerChild compiled df)

/- ### job_processor.py: per-job orchestration -/

/-- Result of one `SandboxExecutor.execute` call as the processor consumes it. -/
inductive ExecR
  | fail
  | ok (df : DataFrame)

/-- Convert an executor outcome to what the processor reads from it: the
`(success, result_df)` pair of job_processor.py:118 and 192. -/
def toExecR (o : ExecOutcome) : ExecR :=
  if o.success then
    match o.result with
    | some df => ExecR.ok df
    | none => ExecR.fail
  else ExecR.fail

/-- Environment of one `JobProcessor.process` run: configuration, the snapshot
of the job row's table names, the source table contents, the sandbox outcome
per input chunk, and the answer the database gives to the n-th
`check_job_cancelled` call (the row can be cancelled concurrently). -/
structure ProcEnv where
  chunkSize : Nat
  maxOutputRows : Nat
  sourceTable : String
  destTable : String
  source : DataFrame
  exec : DataFrame → ExecR
  cancelAt : Nat → Bool

/-- Observable actions of one processor run, in order. -/
inductive PEvent
  | markRunning
  | loadFull
  | loadChunk (offset : Nat)
  | execCall
  | cancelCheck (ans : Bool)
  | wroteChunk (mode : WriteMode) (rows : Nat)
  | progress (rows : Nat)
  | markCompleted (rows : Nat)
  | markFailed (kind : JobStatus) (msg : String)
deriving DecidableEq, Repr

/-- How a processing path ends: normally with the Python return value, or by
an exception that propagates to the handler in `process`. -/
inductive StepRes
  | finished (ok : Bool)
  | raised (msg : String)
deriving DecidableEq, Repr

/-- Model of `JobProcessor._process_full` (job_processor.py:100-145).  The
source-table name was already validated by `get_row_count` in `process`, so the
load here cannot raise on it again.  `cIdx` is the index of the next
cancellation check. -/
def process_full (env : ProcEnv) (cIdx : Nat) : List PEvent × StepRes :=
  match env.exec env.source with
  | ExecR.fail =>
    ([PEvent.loadFull, PEvent.execCall,
      PEvent.markFailed JobStatus.failed "Transformation failed"],
     StepRes.finished false)
  | ExecR.ok rdf =>
    let ans := env.cancelAt cIdx
    let evs := [PEvent.loadFull, PEvent.execCall, PEvent.cancelCheck ans]
    if ans then (evs, StepRes.finished false)
    else
      match write_dataframe_validate env.maxOutputRows rdf env.destTable with
      | some e => (evs, StepRes.raised e)
      | none =>
        (evs ++ [PEvent.wroteChunk WriteMode.replace rdf.rows.length,
                 PEvent.markCompleted rdf.rows.length],
         StepRes.finished true)

/-- The while-loop of `JobProcessor._process_chunked` (job_processor.py:162-233).
Arguments: current offset, index of the next cancellation check (equals the
number of completed iterations), accumulated `total_rows_processed`, the
`first_chunk` flag, and structural fuel.  Each iteration advances the offset by
`chunkSize ≥ 1`, so fuel `totalRows + 1` is never exhausted; exhaustion (the
`raised` marker below) corresponds to the infinite loop the Python code would
run with `CHUNK_SIZE = 0`. -/
def chunk_loop (env : ProcEnv) (totalRows : Nat) :
    Nat → Nat → Nat → Bool → Nat → List PEvent × StepRes
  | _, _, _, _, 0 => ([], StepRes.raised "chunk loop fuel exhausted")
  | offset, cIdx, totalProc, first, fuel + 1 =>
    if offset < totalRows then
      let ans := env.cancelAt cIdx
      if ans then ([PEvent.cancelCheck true], StepRes.finished false)
      else
        let chunk := env.source.slice env.chunkSize offset
        let evs := [PEvent.cancelCheck false, PEvent.loadChunk offset]
        if chunk.isEmptyTable then
          (evs ++ [PEvent.markCompleted totalProc], StepRes.finished true)
        else
          match env.exec chunk with
          | ExecR.fail =>
            let chunkNum := cIdx + 1
            (evs ++ [PEvent.execCall,
                     PEvent.markFailed JobStatus.failed
                       ("Transformation failed on chunk " ++ toString chunkNum)],
             StepRes.finished false)
          | ExecR.ok rdf =>
            let mode := if first then WriteMode.replace else WriteMode.append
            match write_dataframe_validate env.maxOutputRows rdf env.destTable with
            | some e => (evs ++ [PEvent.execCall], StepRes.raised e)
            | none =>
              let rows := rdf.rows.length
              let totalProc' := totalProc + rows
              let next := chunk_loop env totalRows (offset + env.chunkSize)
                  (cIdx + 1) totalProc' false fuel
              (evs ++ [PEvent.execCall, PEvent.wroteChunk mode rows,
                       PEvent.progress totalProc'] ++ next.1,
               next.2)
    else ([PEvent.markCompleted totalProc], StepRes.finished true)

/-- Model of `JobProcessor._process_chunked` entry (job_processor.py:147-233). -/
def process_chunked (env : ProcEnv) (totalRows : Nat) : List PEvent × StepRes :=
  chunk_loop env totalRows 0 0 0 true (totalRows + 1)

/-- Model of `JobProcessor.process` (job_processor.py:38-98) with job and script
rows present: mark running (result unused), count the source rows — a name
failing validation raises here and is caught by the top-level handler, which
calls `mark_job_failed` with the exception text and the default FAILED kind —
then run the full or the chunked path by `row_count > CHUNK_SIZE`. -/
def process_job (env : ProcEnv) : Bool × List PEvent :=
  if !is_valid_table_name env.sourceTable then
    (false, [PEvent.markRunning,
             PEvent.markFailed JobStatus.failed
               ("Invalid table name: " ++ env.sourceTable)])
  else
    let rowCount := env.source.rows.length
    let sub :=
      if rowCount > env.chunkSize then process_chunked env rowCount
      else process_full env 0
    match sub.2 with
    | StepRes.finished ok => (ok, PEvent.markRunning :: sub.1)
    | StepRes.raised msg =>
      (false, PEvent.markRunning :: sub.1 ++ [PEvent.markFailed JobStatus.failed msg])

/-- Replay a processor trace onto a job row through the QueueManager
transitions (log text is abstracted to the empty string; it never affects
status, timestamps, or row counters). -/
def applyEvent (now : Nat) (j : Job) (e : PEvent) : Job :=
  match e with
  | PEvent.markRunning => (mark_job_running now j).1
  | PEvent.markCompleted rows => (mark_job_completed now rows "" j).1
  | PEvent.markFailed kind msg => (mark_job_failed now kind msg "" j).1
  | PEvent.progress rows => (update_job_progress rows "" j).1
  | _ => j

/-- Replay a whole trace. -/
def applyTrace (now : Nat) (j : Job) (tr : List PEvent) : Job :=
  tr.foldl (applyEvent now) j

/- ### worker/main.py: the supervisor dispatch loop -/

/-- Observable actions of `Worker._poll_and_process`. -/
inductive SupEvent
  | supMarkRun (id : Nat) (result : Bool)
  | supDispatch (id : Nat)
deriving DecidableEq, Repr

/-- The dispatch loop of `_poll_and_process` (main.py:84-100): for each fetched
job, break when the active set is full, call `mark_job_running` — its return
value is not consulted — and submit the job to the pool unconditionally. -/
def dispatch_loop (now maxWorkers : Nat) : List Job → Nat → List SupEvent
  | [], _ => []
  | j :: rest, activeCount =>
    if activeCount ≥ maxWorkers then []
    else
      let r := (mark_job_running now j).2
      SupEvent.supMarkRun j.id r :: SupEvent.supDispatch j.id ::
        dispatch_loop now maxWorkers rest (activeCount + 1)

/-- Model of one `_poll_and_process` iteration (main.py:68-103) after reaping:
fetch happens only when a slot is free; `fetched` is the list of job rows the
pending query returned, as they stand when `mark_job_running` runs. -/
def poll_and_process (now maxWorkers activeCount : Nat) (fetched : List Job) :
    List SupEvent :=
  if maxWorkers - activeCount > 0 then
    dispatch_loop now maxWorkers fetched activeCount
  else []

/- ### Concrete instances used by witnesses and counterexamples -/

/-- A one-row, one-column table. -/
def df0 : DataFrame := ⟨["a"], [[CellValue.vInt 1]]⟩

/-- A table with a column but no rows (pandas `df.empty` is true). -/
def edf0 : DataFrame := ⟨["a"], []⟩

/-- A two-row table. -/
def twoRowDf : DataFrame := ⟨["a"], [[CellValue.vInt 1], [CellValue.vInt 2]]⟩

/-- A three-row table. -/
def threeRowDf : DataFrame :=
  ⟨["a"], [[CellValue.vInt 1], [CellValue.vInt 2], [CellValue.vInt 3]]⟩

/-- A table whose column name fails the column identifier rule. -/
def badColDf : DataFrame := ⟨["9bad"], [[CellValue.vInt 1]]⟩

/-- A database holding a (reserved-named) `users` table. -/
def dbUsers : PgDatabase := ⟨[("users", df0)]⟩

/-- A database with no user tables. -/
def emptyDb : PgDatabase := ⟨[]⟩

/-- A freshly created pending job row. -/
def pendingJob : Job := ⟨1, JobStatus.pending, "", none, 0, none, none⟩

/-- A job row the cancel endpoint has already set to killed. -/
def killedJob : Job := ⟨7, JobStatus.killed, "", none, 0, none, none⟩

/-- A child process that never exits (the `while True: pass` script of spec
scenario S3) and stays within the memory cap. -/
def spinChild : ChildProc :=
  { exitAt := none, exitCode := 1, output := none, memAt := fun _ => 0 }

/-- Processor environment whose sandbox call is the monitored executor run of
the never-terminating child under `SANDBOX_TIMEOUT_SECONDS = 2`. -/
def envC1 : ProcEnv :=
  { chunkSize := 50000, maxOutputRows := 1000000, sourceTable := "sales"
    destTable := "sales_out", source := df0
    exec := fun _ => toExecR (executor_execute 2 512 "return df" spinChild)
    cancelAt := fun _ => false }

/-- Chunked-path environment in which the job is already cancelled at the
first chunk boundary. -/
def envC2 : ProcEnv :=
  { chunkSize := 2, maxOutputRows := 100, sourceTable := "src", destTable := "dst"
    source := threeRowDf, exec := fun df => ExecR.ok df
    cancelAt := fun _ => true }

/-- Environment with `row_count = CHUNK_SIZE` exactly (full-table boundary). -/
def envC5a : ProcEnv :=
  { chunkSize := 1, maxOutputRows := 10, sourceTable := "src", destTable := "dst"
    source := df0, exec := fun df => ExecR.ok df, cancelAt := fun _ => false }

/-- Environment with `row_count = CHUNK_SIZE + 1` (two-chunk boundary). -/
def envC5b : ProcEnv :=
  { chunkSize := 1, maxOutputRows := 10, sourceTable := "src", destTable := "dst"
    source := twoRowDf, exec := fun df => ExecR.ok df, cancelAt := fun _ => false }

/-- Environment whose transform returns an empty table. -/
def envC10 : ProcEnv :=
  { chunkSize := 50000, maxOutputRows := 1000000, sourceTable := "src"
    destTable := "dst", source := df0, exec := fun _ => ExecR.ok edf0
    cancelAt := fun _ => false }

/-- Recognizer for `mark_job_failed` events in a processor trace. -/
def isMarkFailedEv : PEvent → Bool
  | PEvent.markFailed _ _ => true
  | _ => false

/-- Recognizer for dispatch events in a supervisor trace. -/
def isDispatchEv : SupEvent → Bool
  | SupEvent.supDispatch _ => true
  | _ => false

/- ### Theorems -/

/-- C3, counterexample.  The claim says a job already in the terminal status
`killed` is never subsequently overwritten to `completed`; but
`mark_job_completed` carries no status predicate, so applied to a killed row it
sets `completed`. -/
theorem c3_counterexample :
    killedJob.status = JobStatus.killed ∧
    (mark_job_completed 1 5 "" killedJob).1.status = JobStatus.completed ∧
    (mark_job_failed 1 JobStatus.failed "e" "" killedJob).1.status
      = JobStatus.failed := by
  decide

/-- C3, amended.  Only `mark_job_running` is guarded by a status predicate
(`WHERE status = PENDING`), so pending→running is the only protected edge;
`mark_job_completed` and `mark_job_failed` set their terminal status from any
current status (in particular out of `killed`), and `update_job_progress`
leaves the status unchanged. -/
theorem c3_amended (now rows : Nat) (logText err : String) (k : JobStatus)
    (j : Job) :
    ((mark_job_running now j).2 = true ↔ j.status = JobStatus.pending) ∧
    (mark_job_running now j).1.status
      = (if j.status = JobStatus.pending then JobStatus.running else j.status) ∧
    (mark_job_completed now rows logText j).1.status = JobStatus.completed ∧
    (mark_job_failed now k err logText j).1.status = k ∧
    (update_job_progress rows logText j).1.status = j.status := by
  unfold mark_job_running mark_job_completed mark_job_failed update_job_progress
  by_cases h : j.status = JobStatus.pending <;> simp [h]

/-- The dispatch events a supervisor iteration emits are exactly one per
fetched job within the free capacity, independent of each job's status and of
the `mark_job_running` result. -/
theorem dispatch_loop_dispatches (now maxWorkers : Nat) :
    ∀ (jobs : List Job) (a : Nat),
      (dispatch_loop now maxWorkers jobs a).filter isDispatchEv
        = (jobs.take (maxWorkers - a)).map fun j => SupEvent.supDispatch j.id := by
  intro jobs
  induction jobs with
  | nil => intro a; simp [dispatch_loop]
  | cons j rest ih =>
    intro a
    by_cases h : a ≥ maxWorkers
    · have h0 : maxWorkers - a = 0 := by omega
      simp [dispatch_loop, h, h0]
    · have h3 : maxWorkers - a = (maxWorkers - (a + 1)) + 1 := by omega
      simp only [dispatch_loop, if_neg h, h3, List.take_succ_cons, List.map_cons,
        List.filter_cons]
      simp [isDispatchEv, ih]

/-- C4, counterexample.  A fetched job that is no longer pending (here: already
cancelled) makes `mark_job_running` return false, yet the supervisor still
dispatches it: the claim that a job is dispatched only when `mark_running`
returned true is false. -/
theorem c4_counterexample :
    (mark_job_running 0 killedJob).2 = false ∧
    poll_and_process 0 4 0 [killedJob]
      = [SupEvent.supMarkRun 7 false, SupEvent.supDispatch 7] := by
  decide

/-- C4, amended.  The supervisor calls `mark_job_running` before dispatching
but ignores its return value: every fetched job within the free capacity is
dispatched, whatever `mark_running` returned.  It remains true that
`mark_running` can succeed at most once per job row, because of its
status-pending guard. -/
theorem c4_amended :
    (∀ now maxWorkers (jobs : List Job) (a : Nat),
      (dispatch_loop now maxWorkers jobs a).filter isDispatchEv
        = (jobs.take (maxWorkers - a)).map fun j => SupEvent.supDispatch j.id) ∧
    (∀ now now' : Nat, ∀ j : Job, (mark_job_running now j).2 = true →
      (mark_job_running now' (mark_job_running now j).1).2 = false) := by
  constructor
  · exact dispatch_loop_dispatches
  · intro now now' j h
    unfold mark_job_running at *
    by_cases hp : j.status = JobStatus.pending
    · simp [hp]
    · simp [hp] at h

/-- C4 amended, witness at concrete inputs. -/
theorem c4_amended_witness :
    (dispatch_loop 0 4 [killedJob] 0).filter isDispatchEv
      = (([killedJob].take 4).map fun j => SupEvent.supDispatch j.id) ∧
    (mark_job_running 3 (mark_job_running 2 pendingJob).1).2 = false := by
  exact ⟨c4_amended.1 0 4 [killedJob] 0, c4_amended.2 2 3 pendingJob (by decide)⟩

/-- C6.  `write_dataframe` raises, before performing any write and leaving the
database unchanged, on an empty input (`Cannot write empty DataFrame`), on
strictly more than the output-row cap (`Output exceeds maximum rows ...`), and
on a column name failing the column identifier rule (`Invalid column name:
...`); an input of exactly the cap passes the size check and is written. -/
theorem c6_write_validation :
    (∀ db maxRows name mode df, is_valid_destination_table name = true →
      df.isEmptyTable = true →
      write_dataframe db maxRows df name mode
        = (db, Except.error "Cannot write empty DataFrame")) ∧
    (∀ db maxRows name mode df, is_valid_destination_table name = true →
      df.isEmptyTable = false → maxRows < df.rows.length →
      write_dataframe db maxRows df name mode
        = (db, Except.error "Output exceeds maximum rows")) ∧
    (∀ db maxRows name df, is_valid_destination_table name = true →
      df.isEmptyTable = false → df.rows.length = maxRows →
      (∀ col ∈ df.columns, is_valid_column_name col = true) →
      write_dataframe db maxRows df name WriteMode.replace
        = (db.setTable name df, Except.ok df.rows.length)) ∧
    (∀ db maxRows name mode df col, is_valid_destination_table name = true →
      df.isEmptyTable = false → df.rows.length ≤ maxRows →
      df.columns.find? (fun c => !is_valid_column_name c) = some col →
      write_dataframe db maxRows df name mode
        = (db, Except.error ("Invalid column name: " ++ col))) := by
  refine ⟨?_, ?_, ?_, ?_⟩
  · intro db maxRows name mode df hn he
    unfold write_dataframe write_dataframe_validate
    simp [hn, he]
  · intro db maxRows name mode df hn he hlt
    unfold write_dataframe write_dataframe_validate
    simp [hn, he, hlt, Nat.not_le_of_lt hlt]
  · intro db maxRows name df hn he hlen hcols
    unfold write_dataframe write_dataframe_validate
    have hfind : df.columns.find? (fun c => !is_valid_column_name c) = none := by
      rw [List.find?_eq_none]
      intro c hc
      simp [hcols c hc]
    simp [hn, he, hlen, hfind]
  · intro db maxRows name mode df col hn he hle hfind
    unfold write_dataframe write_dataframe_validate
    simp [hn, he, Nat.not_lt_of_le hle, hfind]

/-- C6, witness at concrete inputs. -/
theorem c6_write_validation_witness :
    write_dataframe emptyDb 5 edf0 "dst" WriteMode.replace
      = (emptyDb, Except.error "Cannot write empty DataFrame") ∧
    write_dataframe emptyDb 1 twoRowDf "dst" WriteMode.append
      = (emptyDb, Except.error "Output exceeds maximum rows") ∧
    write_dataframe emptyDb 2 twoRowDf "dst" WriteMode.replace
      = (emptyDb.setTable "dst" twoRowDf, Except.ok twoRowDf.rows.length) ∧
    write_dataframe emptyDb 5 badColDf "dst" WriteMode.replace
      = (emptyDb, Except.error ("Invalid column name: " ++ "9bad")) := by
  refine ⟨c6_write_validation.1 _ _ _ _ _ (by decide) (by decide),
    c6_write_validation.2.1 _ _ _ _ _ (by decide) (by decide) (by decide),
    c6_write_validation.2.2.1 _ _ _ _ (by decide) (by decide) (by decide) ?_,
    c6_write_validation.2.2.2 _ _ _ _ _ _ (by decide) (by decide) (by decide)
      (by decide)⟩
  intro col hc
  simp only [twoRowDf, List.mem_singleton] at hc
  subst hc
  decide

/-- C7, counterexample.  The claim says every DataStore operation rejects a
name colliding with a reserved name; but `load_table`, `load_table_chunk` and
`get_row_count` only apply the regex test, so the reserved name `users` passes
their validation and reaches SQL text. -/
theorem c7_counterexample :
    SYSTEM_TABLES.contains "users" = true ∧
    is_valid_table_name "users" = true ∧
    load_table dbUsers "users" = Except.ok df0 ∧
    load_table_chunk dbUsers "users" 10 0 = Except.ok df0 ∧
    get_row_count dbUsers "users" = Except.ok 1 := by
  decide

/-- C7, amended.  All four operations reject names failing the table regex
(with Python `re.match` semantics); the reserved-name and reserved-start rules
are enforced only by `write_dataframe` through `is_valid_destination_table`,
not by the read operations. -/
theorem c7_amended :
    (∀ db name chunkSize offset, is_valid_table_name name = false →
      load_table db name = Except.error ("Invalid table name: " ++ name) ∧
      load_table_chunk db name chunkSize offset
        = Except.error ("Invalid table name: " ++ name) ∧
      get_row_count db name = Except.error ("Invalid table name: " ++ name)) ∧
    (∀ db maxRows df name mode, is_valid_destination_table name = false →
      write_dataframe db maxRows df name mode
        = (db, Except.error ("Invalid destination table name: " ++ name))) ∧
    (∀ name, is_valid_table_name name = false →
      is_valid_destination_table name = false) ∧
    (∀ name, SYSTEM_TABLES.contains (lowerAscii name) = true →
      is_valid_destination_table name = false) ∧
    (∀ name, reservedStarts.any
        (fun p => leadsWith p.data (lowerAscii name).data) = true →
      is_valid_destination_table name = false) := by
  refine ⟨?_, ?_, ?_, ?_, ?_⟩
  · intro db name chunkSize offset h
    unfold load_table load_table_chunk get_row_count
    simp [h]
  · intro db maxRows df name mode h
    unfold write_dataframe write_dataframe_validate
    simp [h]
  · intro name h
    unfold is_valid_destination_table
    rw [h]
    simp
  · intro name h
    unfold is_valid_destination_table
    rw [h]
    simp
  · intro name h
    unfold is_valid_destination_table
    rw [h]
    simp

/-- C7 amended, witness at concrete inputs. -/
theorem c7_amended_witness :
    (load_table emptyDb "9bad" = Except.error ("Invalid table name: " ++ "9bad") ∧
     load_table_chunk emptyDb "9bad" 5 0
       = Except.error ("Invalid table name: " ++ "9bad") ∧
     get_row_count emptyDb "9bad"
       = Except.error ("Invalid table name: " ++ "9bad")) ∧
    write_dataframe emptyDb 5 df0 "users" WriteMode.replace
      = (emptyDb, Except.error ("Invalid destination table name: " ++ "users")) ∧
    is_valid_destination_table "9bad" = false ∧
    is_valid_destination_table "USERS" = false ∧
    is_valid_destination_table "pg_secrets" = false := by
  exact ⟨c7_amended.1 emptyDb "9bad" 5 0 (by decide),
    c7_amended.2.1 emptyDb 5 df0 "users" WriteMode.replace (by decide),
    c7_amended.2.2.1 "9bad" (by decide),
    c7_amended.2.2.2.1 "USERS" (by decide),
    c7_amended.2.2.2.2 "pg_secrets" (by decide)⟩

/-- C1.  Concrete evaluation of a timed-out job (spec scenario S3): the child
never exits, the monitor kills it and notes the timeout, the executor reports
plain failure, and the processor then invokes `mark_job_failed` with the
default FAILED kind — the replayed job row ends in status `failed`, not
`timeout`. -/
theorem c1_timeout_marked_failed :
    executor_execute 2 512 "return df" spinChild
      = { success := false, result := none, killedChild := true
          timeoutNoted := true } ∧
    process_job envC1
      = (false, [PEvent.markRunning, PEvent.loadFull, PEvent.execCall,
                 PEvent.markFailed JobStatus.failed "Transformation failed"]) ∧
    (applyTrace 3 pendingJob (process_job envC1).2).status = JobStatus.failed ∧
    (process_job envC1).2.filter
        (fun e => e == PEvent.markFailed JobStatus.failed "Transformation failed")
      ≠ [] := by
  refine ⟨by decide, by decide, by decide, by decide⟩

/-- A cancellation observed by `_process_full` is the last thing the full path
does: the result is a plain early return and the trace ends at the check. -/
theorem process_full_cancel_last (env : ProcEnv) (cIdx : Nat) :
    PEvent.cancelCheck true ∈ (process_full env cIdx).1 →
    (process_full env cIdx).2 = StepRes.finished false ∧
    (process_full env cIdx).1.getLast? = some (PEvent.cancelCheck true) := by
  unfold process_full
  cases hx : env.exec env.source with
  | fail =>
    intro hmem
    simp at hmem
  | ok rdf =>
    by_cases hans : env.cancelAt cIdx
    · intro _
      simp [hans]
    · cases hw : write_dataframe_validate env.maxOutputRows rdf env.destTable with
      | some e =>
        intro hmem
        simp [hans, hw] at hmem
      | none =>
        intro hmem
        simp [hans, hw] at hmem

/-- A cancellation observed by the chunk loop is the last thing it does: the
loop returns immediately with a plain `False`, emitting no further load, exec,
write, progress, or queue transition. -/
theorem chunk_loop_cancel_last (env : ProcEnv) (totalRows : Nat) :
    ∀ fuel offset cIdx totalProc first,
      PEvent.cancelCheck true
          ∈ (chunk_loop env totalRows offset cIdx totalProc first fuel).1 →
      (chunk_loop env totalRows offset cIdx totalProc first fuel).2
          = StepRes.finished false ∧
      (chunk_loop env totalRows offset cIdx totalProc first fuel).1.getLast?
          = some (PEvent.cancelCheck true) := by
  intro fuel
  induction fuel with
  | zero =>
    intro offset cIdx totalProc first h
    simp [chunk_loop] at h
  | succ n ih =>
    intro offset cIdx totalProc first h
    by_cases ho : offset < totalRows
    · by_cases hans : env.cancelAt cIdx
      · constructor
        · simp [chunk_loop, ho, hans]
        · simp [chunk_loop, ho, hans]
      · by_cases hemp : (env.source.slice env.chunkSize offset).isEmptyTable
        · rw [chunk_loop] at h ⊢
          simp [ho, hans, hemp] at h
        · cases hx : env.exec (env.source.slice env.chunkSize offset) with
          | fail =>
            rw [chunk_loop] at h ⊢
            simp [ho, hans, hemp, hx] at h
          | ok rdf =>
            cases hw : write_dataframe_validate env.maxOutputRows rdf env.destTable with
            | some e =>
              rw [chunk_loop] at h ⊢
              simp [ho, hans, hemp, hx, hw] at h
            | none =>
              rw [chunk_loop] at h ⊢
              simp only [ho, if_true, hans, Bool.false_eq_true, if_false, hemp,
                hx, hw] at h ⊢
              have hmem : PEvent.cancelCheck true
                  ∈ (chunk_loop env totalRows (offset + env.chunkSize) (cIdx + 1)
                      (totalProc + rdf.rows.length) false n).1 := by
                simp at h
                tauto
              have hih := ih (offset + env.chunkSize) (cIdx + 1)
                (totalProc + rdf.rows.length) false hmem
              refine ⟨hih.1, ?_⟩
              have hne : (chunk_loop env totalRows (offset + env.chunkSize)
                  (cIdx + 1) (totalProc + rdf.rows.length) false n).1 ≠ [] := by
                intro hnil
                rw [hnil] at hmem
                simp at hmem
              rw [List.getLast?_append_of_ne_nil _ hne]
              exact hih.2
    · rw [chunk_loop] at h
      simp [ho] at h

/-- C2, counterexample.  A job cancelled before the first chunk boundary: the
processor observes `is_cancelled = true` and stops, but the claimed
`mark_failed(kind=killed)` call never happens — the trace holds no
`mark_failed` at all and the replayed row is untouched (no `completed_at`, no
error recorded by the processor). -/
theorem c2_counterexample :
    check_job_cancelled killedJob = true ∧
    process_job envC2 = (false, [PEvent.markRunning, PEvent.cancelCheck true]) ∧
    (process_job envC2).2.filter isMarkFailedEv = [] ∧
    applyTrace 9 killedJob (process_job envC2).2 = killedJob := by
  refine ⟨by decide, by decide, by decide, by decide⟩

/-- C2, amended.  `check_job_cancelled` answers true exactly when the row's
status is already `killed` (written by the cancel endpoint), and whenever the
processor observes a true cancellation check — at a chunk boundary or at the
full path's post-execution check — it returns false immediately: the check is
the final event of the run, so no further chunk is read, transformed or
written and the processor performs no queue transition of its own. -/
theorem c2_amended (env : ProcEnv) :
    (∀ j, check_job_cancelled j = true ↔ j.status = JobStatus.killed) ∧
    (PEvent.cancelCheck true ∈ (process_job env).2 →
      (process_job env).1 = false ∧
      (process_job env).2.getLast? = some (PEvent.cancelCheck true)) := by
  refine ⟨fun j => by simp [check_job_cancelled], ?_⟩
  unfold process_job
  by_cases hn : is_valid_table_name env.sourceTable = true
  · simp only [hn, Bool.not_true, Bool.false_eq_true, if_false]
    by_cases hsz : env.source.rows.length > env.chunkSize
    · simp only [if_pos hsz, process_chunked]
      rcases h2 : (chunk_loop env env.source.rows.length 0 0 0 true
          (env.source.rows.length + 1)).2 with ok | msg
      · simp only [h2]
        intro hmem
        rcases List.mem_cons.mp hmem with heq | hmem2
        · exact absurd heq (by decide)
        · have hl := chunk_loop_cancel_last env env.source.rows.length
            (env.source.rows.length + 1) 0 0 0 true hmem2
          rw [hl.1] at h2
          injection h2 with hok
          refine ⟨hok.symm, ?_⟩
          rw [← List.singleton_append, List.getLast?_append_of_ne_nil]
          · exact hl.2
          · intro hnil
            rw [hnil] at hmem2
            simp at hmem2
      · simp only [h2]
        intro hmem
        exfalso
        rcases List.mem_cons.mp hmem with heq | hmem2
        · exact absurd heq (by decide)
        · rcases List.mem_append.mp hmem2 with hmem3 | hmem4
          · have hl := chunk_loop_cancel_last env env.source.rows.length
              (env.source.rows.length + 1) 0 0 0 true hmem3
            rw [hl.1] at h2
            exact StepRes.noConfusion h2
          · simp at hmem4
    · simp only [if_neg hsz]
      rcases h2 : (process_full env 0).2 with ok | msg
      · simp only [h2]
        intro hmem
        rcases List.mem_cons.mp hmem with heq | hmem2
        · exact absurd heq (by decide)
        · have hl := process_full_cancel_last env 0 hmem2
          rw [hl.1] at h2
          injection h2 with hok
          refine ⟨hok.symm, ?_⟩
          rw [← List.singleton_append, List.getLast?_append_of_ne_nil]
          · exact hl.2
          · intro hnil
            rw [hnil] at hmem2
            simp at hmem2
      · simp only [h2]
        intro hmem
        exfalso
        rcases List.mem_cons.mp hmem with heq | hmem2
        · exact absurd heq (by decide)
        · rcases List.mem_append.mp hmem2 with hmem3 | hmem4
          · have hl := process_full_cancel_last env 0 hmem3
            rw [hl.1] at h2
            exact StepRes.noConfusion h2
          · simp at hmem4
  · simp only [Bool.not_eq_true] at hn
    simp only [hn, Bool.not_false, if_true]
    intro hmem
    simp at hmem

/-- C2 amended, witness at concrete inputs. -/
theorem c2_amended_witness :
    (check_job_cancelled killedJob = true ↔ killedJob.status = JobStatus.killed) ∧
    ((process_job envC2).1 = false ∧
      (process_job envC2).2.getLast? = some (PEvent.cancelCheck true)) := by
  exact ⟨(c2_amended envC2).1 killedJob, (c2_amended envC2).2 (by decide)⟩

/-- C8.  The identity script `return df` passes pre-validation, is wrapped into
a `transform(df)` definition, compiles, and the sandbox pipeline returns
success with exactly the input table — same rows, same column order, same
scalar values (hence types) — with no empty-table warning on a non-empty
input. -/
theorem c8_identity_roundtrip (df : DataFrame) (timeoutS maxMemMB : Nat)
    (h : df.isEmptyTable = false) :
    compile_code "return df"
      = Except.ok [PyStmt.defun "transform" ["df"]
          [PyStmt.ret (PyExpr.evar "df"), PyStmt.ret (PyExpr.evar "df")]] ∧
    runner_main [PyStmt.defun "transform" ["df"]
          [PyStmt.ret (PyExpr.evar "df"), PyStmt.ret (PyExpr.evar "df")]] df
      = { envelope := Envelope.success ⟨df, df.rows.length, df.columns⟩
          warnedEmptyStderr := false } ∧
    sandbox_execute_pipeline timeoutS maxMemMB "return df" df
      = { success := true, result := some df, killedChild := false
          timeoutNoted := false } := by
  refine ⟨rfl, ?_, rfl⟩
  have hr : runner_main [PyStmt.defun "transform" ["df"]
        [PyStmt.ret (PyExpr.evar "df"), PyStmt.ret (PyExpr.evar "df")]] df
      = { envelope := Envelope.success ⟨df, df.rows.length, df.columns⟩
          warnedEmptyStderr := df.isEmptyTable } := rfl
  rw [hr, h]

/-- C8, witness at a concrete non-empty table. -/
theorem c8_identity_roundtrip_witness :
    df0.isEmptyTable = false ∧
    sandbox_execute_pipeline 60 512 "return df" df0
      = { success := true, result := some df0, killedChild := false
          timeoutNoted := false } := by
  exact ⟨by decide, (c8_identity_roundtrip df0 60 512 (by decide)).2.2⟩

/-- C9.  The substring stage of pre-validation fires on the lower-cased raw
text, wherever the pattern occurs — identifiers merely ending in a blocked
name, comments, any position — and compilation then returns one of the fixed
messages; a call spelled `my_eval(df)` and a pattern inside a comment are both
rejected with `eval() is not allowed`; and wrapping is skipped exactly when
the raw substring `def transform` occurs in the source. -/
theorem c9_prevalidation :
    (∀ code : String, (dangerous_patterns.any fun p =>
        strContains (lowerAscii code) (lowerAscii p.1)) = true →
      ∃ msg, compile_code code = Except.error msg ∧
        msg ∈ dangerous_patterns.map (·.2)) ∧
    compile_code "df = my_eval(df)" = Except.error "eval() is not allowed" ∧
    compile_code "# a comment mentioning eval( here"
      = Except.error "eval() is not allowed" ∧
    (∀ code : String, strContains code "def transform" = true →
      wrap_transform_function code = code) := by
  refine ⟨?_, rfl, rfl, ?_⟩
  · intro code hany
    have hsome : (dangerous_patterns.find? fun p =>
        strContains (lowerAscii code) (lowerAscii p.1)).isSome := by
      rw [List.find?_isSome]
      simpa using List.any_eq_true.mp hany
    obtain ⟨pr, hpr⟩ := Option.isSome_iff_exists.mp hsome
    have h1 : firstDangerous code = some pr.2 := by
      unfold firstDangerous
      rw [hpr]
      rfl
    have h2 : pre_validate code = some pr.2 := by
      unfold pre_validate
      rw [h1]
    refine ⟨pr.2, ?_, ?_⟩
    · unfold compile_code
      rw [h2]
    · exact List.mem_map_of_mem _ (List.mem_of_find?_eq_some hpr)
  · intro code hc
    unfold wrap_transform_function
    simp [hc]

/-- C9, witness at concrete inputs. -/
theorem c9_prevalidation_witness :
    (∃ msg, compile_code "x = eval(s)" = Except.error msg ∧
      msg ∈ dangerous_patterns.map (·.2)) ∧
    wrap_transform_function "def transform(df):\n    return df"
      = "def transform(df):\n    return df" := by
  exact ⟨c9_prevalidation.1 "x = eval(s)" (by decide),
    c9_prevalidation.2.2.2 "def transform(df):\n    return df" (by decide)⟩

/-- Replaying any trace that ends in a `mark_job_failed` leaves the row in the
chosen terminal status regardless of its history. -/
theorem applyTrace_markFailed_status (tr : List PEvent) (now : Nat) (j : Job)
    (kind : JobStatus) (msg : String) :
    (applyTrace now j (tr ++ [PEvent.markFailed kind msg])).status = kind := by
  unfold applyTrace
  rw [List.foldl_append]
  simp [applyEvent, mark_job_failed]

/-- C10.  A transform returning an empty table: the runner itself reports
success (only a stderr warning), the executor passes the success through, but
`write_dataframe` then raises `Cannot write empty DataFrame`; the exception
reaches the processor's top-level handler, so the job ends in status `failed`
with that message rather than completing with zero rows. -/
theorem c10_empty_output (edf : DataFrame) (env : ProcEnv)
    (timeoutS maxMemMB now : Nat) (j : Job)
    (hempty : edf.isEmptyTable = true)
    (hname : is_valid_table_name env.sourceTable = true)
    (hsmall : ¬ env.source.rows.length > env.chunkSize)
    (hexec : env.exec env.source = ExecR.ok edf)
    (hcancel : env.cancelAt 0 = false)
    (hdest : is_valid_destination_table env.destTable = true) :
    runner_validate (PyVal.vDF edf)
      = { envelope := Envelope.success ⟨edf, edf.rows.length, edf.columns⟩
          warnedEmptyStderr := true } ∧
    run_and_monitor timeoutS maxMemMB
        { exitAt := some 0, exitCode := 0
          output := some (runner_validate (PyVal.vDF edf)), memAt := fun _ => 0 }
      = { success := true, result := some edf, killedChild := false
          timeoutNoted := false } ∧
    process_job env
      = (false, [PEvent.markRunning, PEvent.loadFull, PEvent.execCall,
          PEvent.cancelCheck false,
          PEvent.markFailed JobStatus.failed "Cannot write empty DataFrame"]) ∧
    (applyTrace now j (process_job env).2).status = JobStatus.failed := by
  have hrv : runner_validate (PyVal.vDF edf)
      = { envelope := Envelope.success ⟨edf, edf.rows.length, edf.columns⟩
          warnedEmptyStderr := edf.isEmptyTable } := rfl
  have hval : write_dataframe_validate env.maxOutputRows edf env.destTable
      = some "Cannot write empty DataFrame" := by
    unfold write_dataframe_validate
    simp [hdest, hempty]
  have hfull : process_full env 0
      = ([PEvent.loadFull, PEvent.execCall, PEvent.cancelCheck false],
         StepRes.raised "Cannot write empty DataFrame") := by
    unfold process_full
    rw [hexec]
    simp [hcancel, hval]
  have hjob : process_job env
      = (false, [PEvent.markRunning, PEvent.loadFull, PEvent.execCall,
          PEvent.cancelCheck false,
          PEvent.markFailed JobStatus.failed "Cannot write empty DataFrame"]) := by
    unfold process_job
    simp [hname, hsmall, hfull]
  refine ⟨by rw [hrv, hempty], rfl, hjob, ?_⟩
  rw [hjob]
  exact applyTrace_markFailed_status
    [PEvent.markRunning, PEvent.loadFull, PEvent.execCall,
     PEvent.cancelCheck false] now j JobStatus.failed "Cannot write empty DataFrame"

/-- C10, witness at concrete inputs. -/
theorem c10_empty_output_witness :
    process_job envC10
      = (false, [PEvent.markRunning, PEvent.loadFull, PEvent.execCall,
          PEvent.cancelCheck false,
          PEvent.markFailed JobStatus.failed "Cannot write empty DataFrame"]) ∧
    (applyTrace 4 pendingJob (process_job envC10).2).status = JobStatus.failed := by
  exact ⟨(c10_empty_output edf0 envC10 60 512 4 pendingJob (by decide) (by decide)
      (by decide) rfl (by decide) (by decide)).2.2.1,
    (c10_empty_output edf0 envC10 60 512 4 pendingJob (by decide) (by decide)
      (by decide) rfl (by decide) (by decide)).2.2.2⟩

/-- A write validation that passes all four checks returns no error. -/
theorem validate_none_of (maxRows : Nat) (df : DataFrame) (name : String)
    (hdest : is_valid_destination_table name = true)
    (hne : df.isEmptyTable = false)
    (hlen : df.rows.length ≤ maxRows)
    (hcols : ∀ col ∈ df.columns, is_valid_column_name col = true) :
    write_dataframe_validate maxRows df name = none := by
  unfold write_dataframe_validate
  have hfind : df.columns.find? (fun c => !is_valid_column_name c) = none := by
    rw [List.find?_eq_none]
    intro c hc
    simp [hcols c hc]
  simp [hdest, hne, Nat.not_lt_of_le hlen, hfind]

/-- Shape of a chunk slice: columns are preserved and the row count is the
LIMIT/OFFSET arithmetic. -/
theorem slice_shape (df : DataFrame) (limit offset : Nat) :
    (df.slice limit offset).columns = df.columns ∧
    (df.slice limit offset).rows.length = min limit (df.rows.length - offset) := by
  unfold DataFrame.slice
  simp

/-- A slice with rows left and a non-empty column list is not empty. -/
theorem slice_not_empty (df : DataFrame) (limit offset : Nat)
    (hl : 0 < limit) (ho : offset < df.rows.length) (hc : df.columns ≠ []) :
    (df.slice limit offset).isEmptyTable = false := by
  unfold DataFrame.isEmptyTable DataFrame.slice
  simp only [Bool.or_eq_false_iff]
  constructor
  · rw [List.isEmpty_eq_false]
    intro hnil
    have := congrArg List.length hnil
    simp at this
    omega
  · rw [List.isEmpty_eq_false]
    exact hc

/-- The full-table path on a cooperative environment: single read, single
replace-mode write, then completion. -/
theorem process_full_ok (env : ProcEnv)
    (hexec : env.exec env.source = ExecR.ok env.source)
    (hcancel : env.cancelAt 0 = false)
    (hval : write_dataframe_validate env.maxOutputRows env.source env.destTable
      = none) :
    process_full env 0
      = ([PEvent.loadFull, PEvent.execCall, PEvent.cancelCheck false,
          PEvent.wroteChunk WriteMode.replace env.source.rows.length,
          PEvent.markCompleted env.source.rows.length],
         StepRes.finished true) := by
  unfold process_full
  rw [hexec]
  simp [hcancel, hval]

/-- The chunked path at `row_count = CHUNK_SIZE + 1` on a cooperative
environment: exactly two chunks at offsets 0 and CHUNK_SIZE, written
replace-then-append, then completion with the summed row count. -/
theorem chunk_loop_two_chunks (env : ProcEnv) (c : Nat) (hc : 0 < c)
    (hchunk : env.chunkSize = c)
    (hrows : env.source.rows.length = c + 1)
    (hcols : env.source.columns ≠ [])
    (hcancel : ∀ n, env.cancelAt n = false)
    (hexec : ∀ df, env.exec df = ExecR.ok df)
    (hdest : is_valid_destination_table env.destTable = true)
    (hcolsV : ∀ col ∈ env.source.columns, is_valid_column_name col = true)
    (hmax : c + 1 ≤ env.maxOutputRows) :
    process_chunked env (c + 1)
      = ([PEvent.cancelCheck false, PEvent.loadChunk 0, PEvent.execCall,
          PEvent.wroteChunk WriteMode.replace c, PEvent.progress c,
          PEvent.cancelCheck false, PEvent.loadChunk c, PEvent.execCall,
          PEvent.wroteChunk WriteMode.append 1, PEvent.progress (c + 1),
          PEvent.markCompleted (c + 1)],
         StepRes.finished true) := by
  obtain ⟨c', rfl⟩ : ∃ d, c = d + 1 := ⟨c - 1, by omega⟩
  have h1col : (env.source.slice (c' + 1) 0).columns = env.source.columns :=
    (slice_shape env.source (c' + 1) 0).1
  have h2col : (env.source.slice (c' + 1) (c' + 1)).columns = env.source.columns :=
    (slice_shape env.source (c' + 1) (c' + 1)).1
  have h1len : (env.source.slice (c' + 1) 0).rows.length = c' + 1 := by
    have := (slice_shape env.source (c' + 1) 0).2
    rw [hrows] at this
    omega
  have h2len : (env.source.slice (c' + 1) (c' + 1)).rows.length = 1 := by
    have := (slice_shape env.source (c' + 1) (c' + 1)).2
    rw [hrows] at this
    omega
  have h1ne : (env.source.slice (c' + 1) 0).isEmptyTable = false :=
    slice_not_empty env.source (c' + 1) 0 (by omega) (by omega) hcols
  have h2ne : (env.source.slice (c' + 1) (c' + 1)).isEmptyTable = false :=
    slice_not_empty env.source (c' + 1) (c' + 1) (by omega) (by omega) hcols
  have val1 : write_dataframe_validate env.maxOutputRows
      (env.source.slice (c' + 1) 0) env.destTable = none := by
    refine validate_none_of _ _ _ hdest h1ne (by omega) ?_
    rw [h1col]
    exact hcolsV
  have val2 : write_dataframe_validate env.maxOutputRows
      (env.source.slice (c' + 1) (c' + 1)) env.destTable = none := by
    refine validate_none_of _ _ _ hdest h2ne (by omega) ?_
    rw [h2col]
    exact hcolsV
  unfold process_chunked
  simp only [chunk_loop, hchunk, hcancel, hexec, Nat.zero_add, h1ne, h2ne,
    h1len, h2len, val1, val2,
    (show (0 : Nat) < c' + 1 + 1 from by omega),
    (show c' + 1 < c' + 1 + 1 from by omega),
    (show ¬(c' + 1 + (c' + 1) < c' + 1 + 1) from by omega),
    if_true, if_false, Bool.false_eq_true]
  simp

/-- C5.  Path selection is `row_count > CHUNK_SIZE`: at `row_count = CHUNK_SIZE`
exactly, the processor takes the full-table path — one read, one replace-mode
write, completion; at `row_count = CHUNK_SIZE + 1` it takes the chunked path
with exactly two chunks, read at the strictly increasing offsets 0 and
CHUNK_SIZE and written replace then append. -/
theorem c5_paths (c : Nat) (envA envB : ProcEnv)
    (hc : 0 < c)
    (hA1 : envA.chunkSize = c) (hA2 : envA.source.rows.length = c)
    (hA3 : is_valid_table_name envA.sourceTable = true)
    (hA4 : envA.cancelAt 0 = false)
    (hA5 : ∀ df, envA.exec df = ExecR.ok df)
    (hA6 : is_valid_destination_table envA.destTable = true)
    (hA7 : ∀ col ∈ envA.source.columns, is_valid_column_name col = true)
    (hA8 : c ≤ envA.maxOutputRows)
    (hA9 : envA.source.columns ≠ [])
    (hB1 : envB.chunkSize = c) (hB2 : envB.source.rows.length = c + 1)
    (hB3 : is_valid_table_name envB.sourceTable = true)
    (hB4 : ∀ n, envB.cancelAt n = false)
    (hB5 : ∀ df, envB.exec df = ExecR.ok df)
    (hB6 : is_valid_destination_table envB.destTable = true)
    (hB7 : ∀ col ∈ envB.source.columns, is_valid_column_name col = true)
    (hB8 : c + 1 ≤ envB.maxOutputRows)
    (hB9 : envB.source.columns ≠ []) :
    process_job envA = (true,
      [PEvent.markRunning, PEvent.loadFull, PEvent.execCall,
       PEvent.cancelCheck false, PEvent.wroteChunk WriteMode.replace c,
       PEvent.markCompleted c]) ∧
    process_job envB = (true,
      [PEvent.markRunning, PEvent.cancelCheck false, PEvent.loadChunk 0,
       PEvent.execCall, PEvent.wroteChunk WriteMode.replace c, PEvent.progress c,
       PEvent.cancelCheck false, PEvent.loadChunk c, PEvent.execCall,
       PEvent.wroteChunk WriteMode.append 1, PEvent.progress (c + 1),
       PEvent.markCompleted (c + 1)]) := by
  constructor
  · have hne : envA.source.isEmptyTable = false := by
      unfold DataFrame.isEmptyTable
      simp only [Bool.or_eq_false_iff]
      constructor
      · rw [List.isEmpty_eq_false]
        intro hnil
        rw [hnil] at hA2
        simp at hA2
        omega
      · rw [List.isEmpty_eq_false]
        exact hA9
    have hval : write_dataframe_validate envA.maxOutputRows envA.source
        envA.destTable = none :=
      validate_none_of _ _ _ hA6 hne (by omega) hA7
    have hfull := process_full_ok envA (hA5 envA.source) hA4 hval
    have hsz : ¬ envA.source.rows.length > envA.chunkSize := by
      rw [hA1, hA2]
      omega
    unfold process_job
    simp [hA3, hsz, hfull, hA2, hA1, lt_irrefl]
  · have h2 := chunk_loop_two_chunks envB c hc hB1 hB2 hB9 hB4 hB5 hB6 hB7 hB8
    unfold process_job
    simp [hB3, hB1, hB2, h2, (show c < c + 1 from by omega)]

/-- C5, witness: `CHUNK_SIZE = 1` with a one-row source (full path) and a
two-row source (two-chunk path). -/
theorem c5_paths_witness :
    process_job envC5a = (true,
      [PEvent.markRunning, PEvent.loadFull, PEvent.execCall,
       PEvent.cancelCheck false, PEvent.wroteChunk WriteMode.replace 1,
       PEvent.markCompleted 1]) ∧
    process_job envC5b = (true,
      [PEvent.markRunning, PEvent.cancelCheck false, PEvent.loadChunk 0,
       PEvent.execCall, PEvent.wroteChunk WriteMode.replace 1, PEvent.progress 1,
       PEvent.cancelCheck false, PEvent.loadChunk 1, PEvent.execCall,
       PEvent.wroteChunk WriteMode.append 1, PEvent.progress 2,
       PEvent.markCompleted 2]) := by
  exact c5_paths 1 envC5a envC5b (by decide) (by decide) (by decide) (by decide)
    (by decide) (by intro df; rfl) (by decide)
    (by intro col hcm; simp [envC5a, df0] at hcm; subst hcm; decide)
    (by decide) (by decide) (by decide) (by decide) (by decide)
    (by intro n; rfl) (by intro df; rfl) (by decide)
    (by intro col hcm; simp [envC5b, twoRowDf] at hcm; subst hcm; decide)
    (by decide) (by decide)

/-- C3 amended, witness at concrete inputs. -/
theorem c3_amended_witness :
    ((mark_job_running 2 pendingJob).2 = true
      ↔ pendingJob.status = JobStatus.pending) ∧
    (mark_job_running 2 pendingJob).1.status
      = (if pendingJob.status = JobStatus.pending then JobStatus.running
         else pendingJob.status) ∧
    (mark_job_completed 2 5 "" pendingJob).1.status = JobStatus.completed ∧
    (mark_job_failed 2 JobStatus.killed "e" "" pendingJob).1.status
      = JobStatus.killed ∧
    (update_job_progress 5 "" pendingJob).1.status = pendingJob.status := by
  exact c3_amended 2 5 "" "e" JobStatus.killed pendingJob
